import Mathlib

/-!
Verification development for the ZATCA invoice compliance pipeline:
money/VAT calculator, TLV/QR encoder, bilingual label resolver,
Arabic text shaper, request validation and invoice orchestrator.

Monetary values are modelled the way Python Decimal represents them:
an integer coefficient together with a count of fractional digits
(the Decimal exponent is the negation of the scale).  All operations
the source performs on Decimal values (addition, multiplication,
division by the literal 100, quantization with round(x, 2), fixed
two-decimal formatting) are exact at this representation, matching
Python Decimal semantics for the magnitudes an invoice holds.  The
rational value of a representation is the semantic reading used by
specification-level statements.

External capabilities the source delegates to (the Arabic reshaping
and bidi libraries, the QR raster encoder, the PDF layout engine) are
parameters of the corresponding definitions; database state is passed
explicitly as the list of stored invoice rows.
-/

namespace ZatcaSaath


/-- Python Decimal, as coefficient and number of fractional digits:
the value denoted is num divided by 10 to the scale. -/
structure Decimal where
  num : ℤ
  scale : ℕ
deriving Repr, DecidableEq

/-- Semantic (rational) value of a Decimal. -/
def Decimal.toRat (a : Decimal) : ℚ := (a.num : ℚ) / 10 ^ a.scale

/-- Numeric equality of two Decimal representations (Python compares
Decimal values numerically, ignoring trailing zeros). -/
def Decimal.deq (a b : Decimal) : Prop := a.num * 10 ^ b.scale = b.num * 10 ^ a.scale

instance (a b : Decimal) : Decidable (a.deq b) := by
  unfold Decimal.deq; infer_instance

/-- Exact Decimal addition: align to the larger scale (Python keeps the
smaller exponent of the two operands). -/
def Decimal.add (a b : Decimal) : Decimal :=
  let e := max a.scale b.scale
  ⟨a.num * 10 ^ (e - a.scale) + b.num * 10 ^ (e - b.scale), e⟩

/-- Exact Decimal multiplication: coefficients multiply, scales add. -/
def Decimal.mul (a b : Decimal) : Decimal := ⟨a.num * b.num, a.scale + b.scale⟩

/-- Division by the literal Decimal("100"), the only division the source
performs: exact, the ideal exponent shifts the scale by two. -/
def Decimal.div100 (a : Decimal) : Decimal := ⟨a.num, a.scale + 2⟩

/-- Round the integer quotient of n over a positive m to the nearest
integer, ties to even (the integer core of ROUND_HALF_EVEN). -/
def rheDiv (n m : ℤ) : ℤ :=
  let q := n.ediv m
  let r := n.emod m
  if 2 * r < m then q
  else if m < 2 * r then q + 1
  else if q.emod 2 = 0 then q else q + 1

/-- The source expression round(x, 2) on Decimal x: quantize to exactly
two fractional digits with ROUND_HALF_EVEN. -/
def Decimal.round2 (a : Decimal) : Decimal :=
  if a.scale ≤ 2 then ⟨a.num * 10 ^ (2 - a.scale), 2⟩
  else ⟨rheDiv a.num (10 ^ (a.scale - 2)), 2⟩

/-- Mathematical half-even rounding of a rational to an integer; used
only in specification statements, never by the embedded code. -/
def halfEvenInt (x : ℚ) : ℤ :=
  if x - ⌊x⌋ < 1 / 2 then ⌊x⌋
  else if 1 / 2 < x - ⌊x⌋ then ⌊x⌋ + 1
  else if (⌊x⌋ : ℤ).emod 2 = 0 then ⌊x⌋ else ⌊x⌋ + 1

/-- Mathematical rounding of a rational to two decimal places, ties to
even; the specification-level counterpart of Decimal.round2. -/
def ratRound2 (q : ℚ) : ℚ := (halfEvenInt (100 * q) : ℚ) / 100

/-- A loosely typed line item as consumed by calculate_totals and by the
preview endpoint: a dict whose quantity, unit_price and vat_rate keys
may be absent (item.get supplies the defaults 0, 0 and 15). -/
structure RawItem where
  quantity : Option Decimal
  unit_price : Option Decimal
  vat_rate : Option Decimal
deriving Repr, DecidableEq

/-- Result dict of InvoiceService.calculate_totals. -/
structure Totals where
  subtotal : Decimal
  vat_amount : Decimal
  total_amount : Decimal
deriving Repr, DecidableEq

/-- The accumulation loop of InvoiceService.calculate_totals: running
(subtotal, vat_amount) over the line items in order. -/
def calcLoop : Decimal → Decimal → List RawItem → Decimal × Decimal
  | s, v, [] => (s, v)
  | s, v, i :: rest =>
      let qty := i.quantity.getD ⟨0, 0⟩
      let price := i.unit_price.getD ⟨0, 0⟩
      let rate := i.vat_rate.getD ⟨15, 0⟩
      let isub := qty.mul price
      let ivat := (isub.mul rate).div100
      calcLoop (s.add isub) (v.add ivat) rest

/-- InvoiceService.calculate_totals: sum the exact per-line subtotals
and VAT amounts, set total = subtotal + vat, then round each of the
three aggregates independently to two decimal places. -/
def calculate_totals (items : List RawItem) : Totals :=
  let sv := calcLoop ⟨0, 0⟩ ⟨0, 0⟩ items
  { subtotal := sv.1.round2
    vat_amount := sv.2.round2
    total_amount := (sv.1.add sv.2).round2 }

/-- Specification-level exact subtotal of a list of items, as a
rational. -/
def specSubtotal (items : List RawItem) : ℚ :=
  (items.map (fun i =>
    (i.quantity.getD ⟨0, 0⟩).toRat * (i.unit_price.getD ⟨0, 0⟩).toRat)).sum

/-- Specification-level exact VAT aggregate of a list of items, as a
rational. -/
def specVat (items : List RawItem) : ℚ :=
  (items.map (fun i =>
    (i.quantity.getD ⟨0, 0⟩).toRat * (i.unit_price.getD ⟨0, 0⟩).toRat *
      (i.vat_rate.getD ⟨15, 0⟩).toRat / 100)).sum

/-- Response model of the preview endpoint. -/
structure PreviewResponse where
  subtotal : Decimal
  vat_amount : Decimal
  total_amount : Decimal
  is_valid : Bool
  errors : List String
deriving Repr, DecidableEq

/-- Validation messages the preview loop appends for one item, in
source order (quantity, unit_price, vat_rate); disp is the 1-based item
index displayed in the message.  Comparisons against the literals 0, 5
and 15 are numeric Decimal comparisons. -/
def previewItemErrors (disp : Nat) (i : RawItem) : List String :=
  let qty := i.quantity.getD ⟨0, 0⟩
  let price := i.unit_price.getD ⟨0, 0⟩
  let rate := i.vat_rate.getD ⟨15, 0⟩
  (if qty.num < 0 then ["Item " ++ toString disp ++ ": Quantity cannot be negative"] else []) ++
  (if price.num < 0 then ["Item " ++ toString disp ++ ": Unit price cannot be negative"] else []) ++
  (if rate.deq ⟨0, 0⟩ ∨ rate.deq ⟨5, 0⟩ ∨ rate.deq ⟨15, 0⟩ then []
   else ["Item " ++ toString disp ++ ": VAT rate must be 0%, 5%, or 15%"])

/-- The loop of the preview endpoint: accumulates sums and validation
errors; disp is the displayed index (enumerate index plus one).
Invalid items still contribute to the sums. -/
def previewLoop : Nat → Decimal → Decimal → List String → List RawItem →
    Decimal × Decimal × List String
  | _, s, v, errs, [] => (s, v, errs)
  | disp, s, v, errs, i :: rest =>
      let qty := i.quantity.getD ⟨0, 0⟩
      let price := i.unit_price.getD ⟨0, 0⟩
      let rate := i.vat_rate.getD ⟨15, 0⟩
      let isub := qty.mul price
      let ivat := (isub.mul rate).div100
      previewLoop (disp + 1) (s.add isub) (v.add ivat) (errs ++ previewItemErrors disp i) rest

/-- The preview endpoint calculate_preview: validates and sums every
line item, rounds the three aggregates, and reports is_valid exactly
when no error was collected. -/
def calculate_preview (items : List RawItem) : PreviewResponse :=
  let sve := previewLoop 1 ⟨0, 0⟩ ⟨0, 0⟩ [] items
  { subtotal := sve.1.round2
    vat_amount := sve.2.1.round2
    total_amount := (sve.1.add sve.2.1).round2
    is_valid := sve.2.2.isEmpty
    errors := sve.2.2 }

def itemValid (i : RawItem) : Bool :=
  (match i.quantity with
   | some q => decide (0 < q.num) && decide (q.scale ≤ 2)
   | none => false) &&
  (match i.unit_price with
   | some p => decide (0 < p.num) && decide (p.scale ≤ 2)
   | none => false) &&
  (match i.vat_rate with
   | some r => decide (r.deq ⟨0, 0⟩ ∨ r.deq ⟨5, 0⟩ ∨ r.deq ⟨15, 0⟩)
   | none => false)

def c1item : RawItem := ⟨some ⟨50, 2⟩, some ⟨201, 2⟩, some ⟨15, 0⟩⟩

def c1okItem : RawItem := ⟨some ⟨10, 0⟩, some ⟨500, 0⟩, some ⟨15, 0⟩⟩

/-- UTF-8 encoding of one character as its byte values. -/
def utf8Char (ch : Char) : List Nat :=
  let n := ch.toNat
  if n < 128 then [n]
  else if n < 2048 then [192 + n / 64, 128 + n % 64]
  else if n < 65536 then [224 + n / 4096, 128 + n / 64 % 64, 128 + n % 64]
  else [240 + n / 262144, 128 + n / 4096 % 64, 128 + n / 64 % 64, 128 + n % 64]

/-- UTF-8 encoding of a string (value.encode in the source). -/
def utf8 (s : String) : List Nat := (s.data.map utf8Char).flatten

/-- Character of one base64 sextet (standard alphabet). -/
def b64c (n : Nat) : Char :=
  if n < 26 then Char.ofNat (65 + n)
  else if n < 52 then Char.ofNat (97 + (n - 26))
  else if n < 62 then Char.ofNat (48 + (n - 52))
  else if n = 62 then '+'
  else '/'

/-- Sextet value of one base64 character. -/
def b64v (ch : Char) : Option Nat :=
  let n := ch.toNat
  if 65 ≤ n ∧ n ≤ 90 then some (n - 65)
  else if 97 ≤ n ∧ n ≤ 122 then some (n - 97 + 26)
  else if 48 ≤ n ∧ n ≤ 57 then some (n - 48 + 52)
  else if n = 43 then some 62
  else if n = 47 then some 63
  else none

/-- Standard base64 encoding of a byte list (base64.b64encode). -/
def encodeB64 : List Nat → List Char
  | [] => []
  | [a] => [b64c (a / 4), b64c (a % 4 * 16), '=', '=']
  | [a, b] => [b64c (a / 4), b64c (a % 4 * 16 + b / 16), b64c (b % 16 * 4), '=']
  | a :: b :: c :: rest =>
      b64c (a / 4) :: b64c (a % 4 * 16 + b / 16) :: b64c (b % 16 * 4 + c / 64) ::
        b64c (c % 64) :: encodeB64 rest

/-- Standard base64 decoding of a character list (base64.b64decode). -/
def decodeB64 : List Char → Option (List Nat)
  | [] => some []
  | c1 :: c2 :: c3 :: c4 :: rest =>
      match b64v c1, b64v c2 with
      | some v1, some v2 =>
          if c3 = '=' then
            if c4 = '=' ∧ rest = [] then some [v1 * 4 + v2 / 16] else none
          else
            match b64v c3 with
            | some v3 =>
                if c4 = '=' then
                  if rest = [] then some [v1 * 4 + v2 / 16, v2 % 16 * 16 + v3 / 4] else none
                else
                  match b64v c4, decodeB64 rest with
                  | some v4, some tail =>
                      some ((v1 * 4 + v2 / 16) :: (v2 % 16 * 16 + v3 / 4) ::
                        (v3 % 4 * 64 + v4) :: tail)
                  | _, _ => none
            | none => none
      | _, _ => none
  | _ => none

/-- ZATCAQRGenerator encode tlv static method: one tag byte, one length
byte, then the UTF-8 bytes of the value.  The Python expression
bytes([tag, length]) raises ValueError when either argument exceeds
255, so the encoder is a hard error on oversized fields; the error is
modelled as none. -/
def encodeTLV (tag : Nat) (value : String) : Option (List Nat) :=
  let vb := utf8 value
  if tag ≤ 255 ∧ vb.length ≤ 255 then some (tag :: vb.length :: vb) else none

/-- Two-digit zero padding of a value below 100. -/
def pad2 (n : Nat) : String := if n < 10 then "0" ++ toString n else toString n

/-- The source format expression with a Decimal argument and a fixed
two-decimal format spec: rounds half-even to two fractional digits and
prints with exactly two digits after the point. -/
def fmt2 (d : Decimal) : String :=
  let r := d.round2
  let a := r.num.natAbs
  let s := toString (a / 100) ++ "." ++ pad2 (a % 100)
  if r.num < 0 then "-" ++ s else s

/-- ZATCAQRGenerator.generate_qr_data: concatenate the five TLV records
in tag order and base64-encode the result; any TLV failure (oversized
field) propagates and no payload is produced. -/
def generate_qr_data (seller_name vat_number timestamp : String)
    (total_amount vat_amount : Decimal) : Option String := do
  let t1 ← encodeTLV 1 seller_name
  let t2 ← encodeTLV 2 vat_number
  let t3 ← encodeTLV 3 timestamp
  let t4 ← encodeTLV 4 (fmt2 total_amount)
  let t5 ← encodeTLV 5 (fmt2 vat_amount)
  pure (String.mk (encodeB64 (t1 ++ t2 ++ t3 ++ t4 ++ t5)))

/-- Reference TLV reader: consumes tag byte, length byte, then exactly
length value bytes, repeatedly until the input is exhausted; fails on
any leftover or truncated record. -/
def parseTLV : List Nat → Option (List (Nat × List Nat))
  | [] => some []
  | [_] => none
  | t :: len :: rest =>
      if len ≤ rest.length then
        match parseTLV (rest.drop len) with
        | some records => some ((t, rest.take len) :: records)
        | none => none
      else none
termination_by l => l.length
decreasing_by
  simp
  omega

def oversizedValue : String := String.mk (List.replicate 256 'a')

/-- The fixed set of semantic label keys (fields of the InvoiceLabels
schema). -/
inductive LabelKey
  | company_name
  | vat_number
  | invoice_number
  | date
  | customer_info
  | description
  | quantity
  | amount
  | vat
  | total
  | subtotal
  | vat_total
  | grand_total
  | qr_code
  | notes
deriving DecidableEq, Repr

/-- Field defaults of the pydantic InvoiceLabels schema: every field is
a plain string with a non-null default, so a parsed labels object
always carries a value for every key. -/
def labelFieldDefault : LabelKey → String
  | .company_name => "Company Name"
  | .vat_number => "VAT Number"
  | .invoice_number => "Invoice Number"
  | .date => "Date"
  | .customer_info => "Customer Information"
  | .description => "Description"
  | .quantity => "Qty"
  | .amount => "Amount"
  | .vat => "VAT"
  | .total => "Total"
  | .subtotal => "Subtotal"
  | .vat_total => "VAT (15%)"
  | .grand_total => "Total"
  | .qr_code => "QR Code"
  | .notes => "Notes"

/-- Arabic default label dict of the PDF generator (it has no
company_name key). -/
def defaultLabelsAr : LabelKey → Option String
  | .company_name => none
  | .vat_number => some "الرقم الضريبي"
  | .invoice_number => some "رقم الفاتورة"
  | .date => some "التاريخ"
  | .customer_info => some "معلومات العميل"
  | .description => some "الوصف"
  | .quantity => some "الكمية"
  | .amount => some "المبلغ"
  | .vat => some "ض.ق.م"
  | .total => some "الإجمالي"
  | .subtotal => some "المجموع الفرعي"
  | .vat_total => some "ضريبة القيمة المضافة (15%)"
  | .grand_total => some "الإجمالي"
  | .qr_code => some "رمز الاستجابة السريعة"
  | .notes => some "ملاحظات"

/-- English default label dict of the PDF generator (it has no
company_name key). -/
def defaultLabelsEn : LabelKey → Option String
  | .company_name => none
  | .vat_number => some "VAT Number"
  | .invoice_number => some "Invoice Number"
  | .date => some "Date"
  | .customer_info => some "Customer Information"
  | .description => some "Description"
  | .quantity => some "Qty"
  | .amount => some "Amount"
  | .vat => some "VAT"
  | .total => some "Total"
  | .subtotal => some "Subtotal"
  | .vat_total => some "VAT (15%)"
  | .grand_total => some "Total"
  | .qr_code => some "QR Code"
  | .notes => some "Notes"

/-- ZATCAInvoicePDF get default labels: Arabic dict for "ar", English
dict otherwise. -/
def get_default_labels (language : String) : LabelKey → Option String :=
  if language = "ar" then defaultLabelsAr else defaultLabelsEn

/-- Pydantic validation of a labels object sent by the caller: every
key the caller did not supply receives the InvoiceLabels field default
(the overrides argument is the partial JSON object). -/
def parseInvoiceLabels (overrides : LabelKey → Option String) : LabelKey → String :=
  fun k => (overrides k).getD (labelFieldDefault k)

/-- model_dump(exclude_none=True) on a parsed InvoiceLabels object: no
field is ever None, so the dump contains every key. -/
def modelDump (labels : LabelKey → String) : LabelKey → Option String :=
  fun k => some (labels k)

/-- ZATCAInvoicePDF get labels: start from the language defaults and
update them with every key of the dumped labels object when one was
supplied. -/
def get_labels (language : String) (labels : Option (LabelKey → String)) :
    LabelKey → Option String :=
  match labels with
  | some lbl => fun k =>
      match modelDump lbl k with
      | some v => some v
      | none => get_default_labels language k
  | none => get_default_labels language

/-- The override set of C3: only the key total, mapped to X. -/
def onlyTotalX : LabelKey → Option String :=
  fun k => if k = LabelKey.total then some "X" else none

/-- Bool test for one character in the Arabic Unicode ranges of the
source regex. -/
def is_arabic_char (ch : Char) : Bool :=
  (0x0600 ≤ ch.toNat && ch.toNat ≤ 0x06FF) ||
  (0x0750 ≤ ch.toNat && ch.toNat ≤ 0x077F) ||
  (0x08A0 ≤ ch.toNat && ch.toNat ≤ 0x08FF)

/-- is_arabic_text of the source: the text contains at least one
character in the Arabic ranges. -/
def is_arabic_text (s : String) : Bool := s.data.any is_arabic_char

/-- The external reshape-then-bidi sequence inside the try block of
reshape_arabic_text; the two steps are the external arabic_reshaper
and bidi capabilities, either of which may raise. -/
def shapePipeline {ε : Type} (reshape bidi : String → Except ε String)
    (text : String) : Except ε String := do
  let reshaped ← reshape text
  bidi reshaped

/-- reshape_arabic_text of the source: empty input is returned as is;
otherwise the external pipeline runs and any failure is caught, the
original text being returned unchanged. -/
def reshape_arabic_text {ε : Type} (reshape bidi : String → Except ε String)
    (text : String) : String :=
  if text = "" then text
  else
    match shapePipeline reshape bidi text with
    | Except.ok shaped => shaped
    | Except.error _ => text

/-- An external shaper that always fails, for exercising the failure
path. -/
def failShaper : String → Except Unit String := fun _ => Except.error ()

/-- An external shaper that returns its input, the documented behavior
of the reshape and bidi libraries on Arabic-free text. -/
def okShaper : String → Except Unit String := fun s => Except.ok s

/-- A validated invoice line item (pydantic InvoiceLineItem after
validation). -/
structure LineItem where
  description : String
  quantity : Decimal
  unit_price : Decimal
  vat_rate : Decimal
deriving Repr, DecidableEq

/-- A line item as sent by the client, before pydantic validation;
vat_rate may be absent (its schema default is Decimal 15.0). -/
structure RawLineItem where
  description : String
  quantity : Decimal
  unit_price : Decimal
  vat_rate : Option Decimal
deriving Repr, DecidableEq

/-- Pydantic validation of one line item: description length 1 to 500,
quantity and unit_price positive with at most two fractional digits,
vat_rate between 0 and 100 and in the allow list 0, 5, 15. -/
def parseLineItem (r : RawLineItem) : Except String LineItem :=
  if r.description.length < 1 then Except.error "description: too short"
  else if 500 < r.description.length then Except.error "description: too long"
  else if r.quantity.num ≤ 0 then Except.error "quantity: must be greater than 0"
  else if ¬ r.quantity.scale ≤ 2 then Except.error "quantity: too many decimal places"
  else if r.unit_price.num ≤ 0 then Except.error "unit_price: must be greater than 0"
  else if ¬ r.unit_price.scale ≤ 2 then Except.error "unit_price: too many decimal places"
  else if (r.vat_rate.getD ⟨150, 1⟩).num < 0 then Except.error "vat_rate: must be at least 0"
  else if ¬ (r.vat_rate.getD ⟨150, 1⟩).num ≤ 100 * 10 ^ (r.vat_rate.getD ⟨150, 1⟩).scale then
    Except.error "vat_rate: must be at most 100"
  else if (r.vat_rate.getD ⟨150, 1⟩).deq ⟨0, 0⟩ ∨ (r.vat_rate.getD ⟨150, 1⟩).deq ⟨5, 0⟩ ∨
      (r.vat_rate.getD ⟨150, 1⟩).deq ⟨15, 0⟩ then
    Except.ok ⟨r.description, r.quantity, r.unit_price, r.vat_rate.getD ⟨150, 1⟩⟩
  else Except.error "VAT rate must be 0%, 5%, or 15%"

/-- A validated invoice generation request (pydantic InvoiceRequest
after validation). -/
structure InvoiceRequest where
  customer_name_ar : String
  customer_name_en : Option String
  customer_address_ar : String
  customer_address_en : Option String
  customer_vat_number : Option String
  invoice_number : String
  invoice_date : String
  line_items : List LineItem
  notes : Option String
  language : String
  labels : Option (LabelKey → String)

/-- An invoice generation request as sent by the client, before
pydantic validation. -/
structure RawInvoiceRequest where
  customer_name_ar : String
  customer_name_en : Option String
  customer_address_ar : String
  customer_address_en : Option String
  customer_vat_number : Option String
  invoice_number : String
  invoice_date : String
  line_items : List RawLineItem
  notes : Option String
  language : String
  labels : Option (LabelKey → Option String)

/-- The customer VAT number pattern of the schema: the digit 3 followed
by exactly fourteen digits. -/
def validVatNumber (s : String) : Bool :=
  match s.data with
  | c :: rest => c = '3' && rest.length = 14 && rest.all Char.isDigit
  | [] => false

/-- True when an optional string is present and longer than the bound. -/
def optTooLong (o : Option String) (n : Nat) : Bool :=
  match o with
  | some s => decide (n < s.length)
  | none => false

/-- True when an optional customer VAT number is present and fails the
pattern. -/
def optVatInvalid (o : Option String) : Bool :=
  match o with
  | some s => ! validVatNumber s
  | none => false

/-- Validate each element of a list, failing on the first error. -/
def mapME {α β ε : Type} (f : α → Except ε β) : List α → Except ε (List β)
  | [] => Except.ok []
  | a :: as => do
      let b ← f a
      let bs ← mapME f as
      Except.ok (b :: bs)

/-- Pydantic validation of the whole request body, performed by the
framework before the endpoint handler runs: field-level constraints
plus per-item validation; any violation is a request validation
error. -/
def validateRequest (r : RawInvoiceRequest) : Except String InvoiceRequest :=
  match mapME parseLineItem r.line_items with
  | Except.error e => Except.error e
  | Except.ok items =>
      if r.customer_name_ar.length < 1 then Except.error "customer_name_ar: too short"
      else if 200 < r.customer_name_ar.length then Except.error "customer_name_ar: too long"
      else if optTooLong r.customer_name_en 200 then Except.error "customer_name_en: too long"
      else if r.customer_address_ar.length < 1 then Except.error "customer_address_ar: too short"
      else if 500 < r.customer_address_ar.length then Except.error "customer_address_ar: too long"
      else if optTooLong r.customer_address_en 500 then Except.error "customer_address_en: too long"
      else if optVatInvalid r.customer_vat_number then Except.error "customer_vat_number: pattern"
      else if r.invoice_number.length < 1 then Except.error "invoice_number: too short"
      else if 50 < r.invoice_number.length then Except.error "invoice_number: too long"
      else if r.line_items.length < 1 then Except.error "line_items: at least one item"
      else if 100 < r.line_items.length then Except.error "line_items: at most 100 items"
      else if optTooLong r.notes 1000 then Except.error "notes: too long"
      else if ¬ (r.language = "ar" ∨ r.language = "en") then Except.error "language: pattern"
      else
        Except.ok
          { customer_name_ar := r.customer_name_ar
            customer_name_en := r.customer_name_en
            customer_address_ar := r.customer_address_ar
            customer_address_en := r.customer_address_en
            customer_vat_number := r.customer_vat_number
            invoice_number := r.invoice_number
            invoice_date := r.invoice_date
            line_items := items
            notes := r.notes
            language := r.language
            labels := r.labels.map parseInvoiceLabels }

/-- The issuing company record handed to the orchestrator. -/
structure Company where
  name_en : String
  name_ar : String
  vat_number : String
  address : String
  phone : Option String
  email : Option String
deriving Repr, DecidableEq

/-- The database row the orchestrator builds and persists. -/
structure Invoice where
  invoice_number : String
  invoice_date : String
  customer_name_ar : String
  customer_name_en : Option String
  customer_address_ar : String
  customer_address_en : Option String
  customer_vat_number : Option String
  line_items : List LineItem
  subtotal : Decimal
  total_vat : Decimal
  total_amount : Decimal
  notes : Option String
  qr_code_data : String
  pdf_data : String
  status : String
deriving Repr, DecidableEq

/-- A validated line item viewed as the dict calculate_totals
consumes. -/
def lineItemToRaw (i : LineItem) : RawItem :=
  ⟨some i.quantity, some i.unit_price, some i.vat_rate⟩

/-- The computation part of InvoiceService.create_invoice, everything
before the database calls: totals, QR payload, QR image, PDF.  The QR
image renderer and the PDF composer are the external capabilities
qrImg and pdfGen; an exception anywhere propagates. -/
def createInvoicePipeline (qrImg : String → Except Unit (List Nat))
    (pdfGen : Company → InvoiceRequest → List Nat → Except Unit (List Nat))
    (company : Company) (invoice_data : InvoiceRequest) : Except Unit Invoice := do
  let totals := calculate_totals (invoice_data.line_items.map lineItemToRaw)
  let qr_data ← match generate_qr_data company.name_ar company.vat_number
      invoice_data.invoice_date totals.total_amount totals.vat_amount with
    | some s => Except.ok s
    | none => Except.error ()
  let qr_image ← qrImg qr_data
  let pdf ← pdfGen company invoice_data qr_image
  Except.ok
    { invoice_number := invoice_data.invoice_number
      invoice_date := invoice_data.invoice_date
      customer_name_ar := invoice_data.customer_name_ar
      customer_name_en := invoice_data.customer_name_en
      customer_address_ar := invoice_data.customer_address_ar
      customer_address_en := invoice_data.customer_address_en
      customer_vat_number := invoice_data.customer_vat_number
      line_items := invoice_data.line_items
      subtotal := totals.subtotal
      total_vat := totals.vat_amount
      total_amount := totals.total_amount
      notes := invoice_data.notes
      qr_code_data := qr_data
      pdf_data := String.mk (encodeB64 pdf)
      status := "generated" }

/-- InvoiceService.create_invoice: run the computation pipeline, then
persist the finished row (db.add, db.commit) and return it; the
database state is passed explicitly, and an exception leaves it
untouched because the database calls come last. -/
def create_invoice (qrImg : String → Except Unit (List Nat))
    (pdfGen : Company → InvoiceRequest → List Nat → Except Unit (List Nat))
    (company : Company) (invoice_data : InvoiceRequest) (db : List Invoice) :
    Except Unit Invoice × List Invoice :=
  match createInvoicePipeline qrImg pdfGen company invoice_data with
  | Except.ok inv => (Except.ok inv, db ++ [inv])
  | Except.error e => (Except.error e, db)

/-- Outcome classes of the generation endpoint. -/
inductive GenError
  | validation : String → GenError
  | noCompany : GenError
  | generationFailed : GenError
deriving Repr, DecidableEq

/-- Response body of the generation endpoint. -/
structure InvoiceResponse where
  invoice_number : String
  pdf_base64 : String
  qr_code_data : String
  subtotal : Decimal
  total_vat : Decimal
  total_amount : Decimal
deriving Repr, DecidableEq

/-- The generate endpoint: the framework validates the request body
first (422 on failure), the handler then requires a company profile,
runs the service, rolls back on failure and otherwise returns the
response built from the persisted row. -/
def generate_invoice (qrImg : String → Except Unit (List Nat))
    (pdfGen : Company → InvoiceRequest → List Nat → Except Unit (List Nat))
    (company : Option Company) (raw : RawInvoiceRequest) (db : List Invoice) :
    Except GenError (InvoiceResponse × List Invoice) :=
  match validateRequest raw with
  | Except.error e => Except.error (GenError.validation e)
  | Except.ok req =>
      match company with
      | none => Except.error GenError.noCompany
      | some c =>
          match create_invoice qrImg pdfGen c req db with
          | (Except.ok inv, db2) =>
              Except.ok (⟨inv.invoice_number, inv.pdf_data, inv.qr_code_data,
                inv.subtotal, inv.total_vat, inv.total_amount⟩, db2)
          | (Except.error _, _) => Except.error GenError.generationFailed

def c6item : RawLineItem := ⟨"Service", ⟨1, 0⟩, ⟨100, 0⟩, some ⟨200, 1⟩⟩

def c6request : RawInvoiceRequest :=
  { customer_name_ar := "عميل"
    customer_name_en := none
    customer_address_ar := "الرياض"
    customer_address_en := none
    customer_vat_number := none
    invoice_number := "INV-002"
    invoice_date := "2024-01-01T00:00:00"
    line_items := [c6item]
    notes := none
    language := "ar"
    labels := none }

def c9qrImg : String → Except Unit (List Nat) := fun _ => Except.ok [1]

def c9pdfGen : Company → InvoiceRequest → List Nat → Except Unit (List Nat) :=
  fun _ _ _ => Except.ok [37, 80, 68, 70]

def c9company : Company :=
  ⟨"Test Co", "شركة", "310122393500003", "Riyadh", none, none⟩

def c9request : InvoiceRequest :=
  { customer_name_ar := "عميل"
    customer_name_en := none
    customer_address_ar := "جدة"
    customer_address_en := none
    customer_vat_number := none
    invoice_number := "INV-001"
    invoice_date := "2024-01-01T00:00:00"
    line_items := [⟨"خدمة", ⟨10, 0⟩, ⟨500, 0⟩, ⟨15, 0⟩⟩]
    notes := none
    language := "ar"
    labels := none }

theorem shift_div (n : ℤ) (k m : ℕ) (h : k ≤ m) :
    ((n : ℚ) * 10 ^ (m - k)) / 10 ^ m = (n : ℚ) / 10 ^ k := by
  rw [div_eq_div_iff (by positivity) (by positivity), mul_assoc, ← pow_add]
  congr 2
  omega

theorem Decimal.toRat_add (a b : Decimal) : (a.add b).toRat = a.toRat + b.toRat := by
  unfold Decimal.add Decimal.toRat
  push_cast
  rw [add_div, shift_div _ _ _ (le_max_left a.scale b.scale),
    shift_div _ _ _ (le_max_right a.scale b.scale)]

theorem Decimal.toRat_mul (a b : Decimal) : (a.mul b).toRat = a.toRat * b.toRat := by
  unfold Decimal.mul Decimal.toRat
  push_cast
  rw [pow_add]
  exact (div_mul_div_comm _ _ _ _).symm

theorem Decimal.toRat_div100 (a : Decimal) : a.div100.toRat = a.toRat / 100 := by
  unfold Decimal.div100 Decimal.toRat
  rw [pow_add, ← div_div]
  norm_num

theorem Decimal.deq_iff (a b : Decimal) : a.deq b ↔ a.toRat = b.toRat := by
  unfold Decimal.deq Decimal.toRat
  rw [div_eq_div_iff (by positivity) (by positivity)]
  constructor <;> intro h <;> exact_mod_cast h

theorem floor_intCast_div (n m : ℤ) (hm : 0 < m) : ⌊(n : ℚ) / (m : ℚ)⌋ = n.ediv m := by
  have hm0 : (0 : ℚ) < (m : ℚ) := by exact_mod_cast hm
  have hidq : (m : ℚ) * ((n.ediv m : ℤ) : ℚ) + ((n.emod m : ℤ) : ℚ) = (n : ℚ) := by
    exact_mod_cast Int.ediv_add_emod n m
  have h1 : (0 : ℚ) ≤ ((n.emod m : ℤ) : ℚ) := by
    exact_mod_cast Int.emod_nonneg n (by omega)
  have h2 : ((n.emod m : ℤ) : ℚ) < (m : ℚ) := by
    exact_mod_cast Int.emod_lt_of_pos n hm
  rw [Int.floor_eq_iff]
  constructor
  · rw [le_div_iff₀ hm0]
    nlinarith
  · rw [div_lt_iff₀ hm0]
    nlinarith

theorem halfEvenInt_intCast (z : ℤ) : halfEvenInt (z : ℚ) = z := by
  unfold halfEvenInt
  rw [Int.floor_intCast, sub_self, if_pos (by norm_num : (0 : ℚ) < 1 / 2)]

theorem rheDiv_eq (n m : ℤ) (hm : 0 < m) :
    rheDiv n m = halfEvenInt ((n : ℚ) / (m : ℚ)) := by
  have hm0 : (0 : ℚ) < (m : ℚ) := by exact_mod_cast hm
  have hfl := floor_intCast_div n m hm
  have hidq : (m : ℚ) * ((n.ediv m : ℤ) : ℚ) + ((n.emod m : ℤ) : ℚ) = (n : ℚ) := by
    exact_mod_cast Int.ediv_add_emod n m
  have hfrac : (n : ℚ) / m - ((n.ediv m : ℤ) : ℚ) = ((n.emod m : ℤ) : ℚ) / m := by
    field_simp
    linarith
  unfold rheDiv halfEvenInt
  rw [hfl, hfrac]
  rcases lt_trichotomy (2 * n.emod m) m with h | h | h
  · have hq : ((n.emod m : ℤ) : ℚ) / m < 1 / 2 := by
      rw [div_lt_div_iff₀ hm0 (by norm_num : (0 : ℚ) < 2)]
      have h2 := h
      qify at h2
      linarith
    rw [if_pos h, if_pos hq]
  · have hq : ((n.emod m : ℤ) : ℚ) / m = 1 / 2 := by
      rw [div_eq_div_iff (by positivity) (by norm_num : (2 : ℚ) ≠ 0)]
      have h2 := h
      qify at h2
      linarith
    have hL1 : ¬ 2 * n.emod m < m := by omega
    have hL2 : ¬ m < 2 * n.emod m := by omega
    have hR1 : ¬ ((n.emod m : ℤ) : ℚ) / m < 1 / 2 := by
      rw [hq]
      exact lt_irrefl _
    have hR2 : ¬ (1 : ℚ) / 2 < ((n.emod m : ℤ) : ℚ) / m := by
      rw [hq]
      exact lt_irrefl _
    rw [if_neg hL1, if_neg hL2, if_neg hR1, if_neg hR2]
  · have hq : (1 : ℚ) / 2 < ((n.emod m : ℤ) : ℚ) / m := by
      rw [div_lt_div_iff₀ (by norm_num : (0 : ℚ) < 2) hm0]
      have h2 := h
      qify at h2
      linarith
    have hL1 : ¬ 2 * n.emod m < m := by omega
    have hR1 : ¬ ((n.emod m : ℤ) : ℚ) / m < 1 / 2 := by
      exact not_lt.mpr (le_of_lt hq)
    rw [if_neg hL1, if_pos h, if_neg hR1, if_pos hq]

theorem Decimal.round2_toRat (a : Decimal) : a.round2.toRat = ratRound2 a.toRat := by
  unfold Decimal.round2 ratRound2
  by_cases h : a.scale ≤ 2
  · rw [if_pos h]
    have e1 : (10 : ℚ) ^ (2 - a.scale) * 10 ^ a.scale = 10 ^ 2 := by
      rw [← pow_add]
      congr 1
      omega
    have hz : 100 * a.toRat = ((a.num * 10 ^ (2 - a.scale) : ℤ) : ℚ) := by
      unfold Decimal.toRat
      push_cast
      field_simp
      rw [mul_assoc, e1]
      ring
    rw [hz, halfEvenInt_intCast]
    unfold Decimal.toRat
    norm_num
  · rw [if_neg h]
    have hpos : (0 : ℤ) < 10 ^ (a.scale - 2) := by positivity
    have e1 : (10 : ℚ) ^ (a.scale - 2) * 10 ^ 2 = 10 ^ a.scale := by
      rw [← pow_add]
      congr 1
      omega
    have hz : 100 * a.toRat = (a.num : ℚ) / (((10 : ℤ) ^ (a.scale - 2) : ℤ) : ℚ) := by
      unfold Decimal.toRat
      push_cast
      rw [← mul_div_assoc, div_eq_div_iff (by positivity) (by positivity)]
      rw [← e1]
      ring
    rw [hz, ← rheDiv_eq _ _ hpos]
    unfold Decimal.toRat
    norm_num

theorem Decimal.round2_scale (a : Decimal) : a.round2.scale = 2 := by
  unfold Decimal.round2
  split <;> rfl

theorem calcLoop_cons (s v : Decimal) (i : RawItem) (rest : List RawItem) :
    calcLoop s v (i :: rest) =
      calcLoop (s.add ((i.quantity.getD ⟨0, 0⟩).mul (i.unit_price.getD ⟨0, 0⟩)))
        (v.add ((((i.quantity.getD ⟨0, 0⟩).mul (i.unit_price.getD ⟨0, 0⟩)).mul
          (i.vat_rate.getD ⟨15, 0⟩)).div100)) rest := rfl

theorem calcLoop_sem (items : List RawItem) : ∀ s v : Decimal,
    (calcLoop s v items).1.toRat = s.toRat + specSubtotal items ∧
    (calcLoop s v items).2.toRat = v.toRat + specVat items := by
  induction items with
  | nil =>
      intro s v
      simp [calcLoop, specSubtotal, specVat]
  | cons i rest ih =>
      intro s v
      rw [calcLoop_cons]
      obtain ⟨h1, h2⟩ := ih _ _
      constructor
      · rw [h1, Decimal.toRat_add, Decimal.toRat_mul]
        simp only [specSubtotal, List.map_cons, List.sum_cons]
        ring
      · rw [h2, Decimal.toRat_add, Decimal.toRat_div100, Decimal.toRat_mul, Decimal.toRat_mul]
        simp only [specVat, List.map_cons, List.sum_cons]
        ring

theorem previewLoop_cons (disp : Nat) (s v : Decimal) (errs : List String)
    (i : RawItem) (rest : List RawItem) :
    previewLoop disp s v errs (i :: rest) =
      previewLoop (disp + 1)
        (s.add ((i.quantity.getD ⟨0, 0⟩).mul (i.unit_price.getD ⟨0, 0⟩)))
        (v.add ((((i.quantity.getD ⟨0, 0⟩).mul (i.unit_price.getD ⟨0, 0⟩)).mul
          (i.vat_rate.getD ⟨15, 0⟩)).div100))
        (errs ++ previewItemErrors disp i) rest := rfl

theorem previewLoop_eq_calcLoop (items : List RawItem) :
    ∀ (disp : Nat) (s v : Decimal) (errs : List String),
    (previewLoop disp s v errs items).1 = (calcLoop s v items).1 ∧
    (previewLoop disp s v errs items).2.1 = (calcLoop s v items).2 := by
  induction items with
  | nil =>
      intros
      exact ⟨rfl, rfl⟩
  | cons i rest ih =>
      intro disp s v errs
      rw [previewLoop_cons, calcLoop_cons]
      exact ih _ _ _ _

theorem b64v_b64c : ∀ n : Nat, n < 64 → b64v (b64c n) = some n := by decide

theorem b64c_ne_pad : ∀ n : Nat, n < 64 → b64c n ≠ '=' := by decide

theorem decode_encode (l : List Nat) (h : ∀ x ∈ l, x < 256) :
    decodeB64 (encodeB64 l) = some l := by
  induction l using encodeB64.induct with
  | case1 => rfl
  | case2 a =>
      have ha : a < 256 := h a (by simp)
      have h1 : b64v (b64c (a / 4)) = some (a / 4) := b64v_b64c _ (by omega)
      have h2 : b64v (b64c (a % 4 * 16)) = some (a % 4 * 16) := b64v_b64c _ (by omega)
      have e1 : a / 4 * 4 + a % 4 * 16 / 16 = a := by omega
      simp [encodeB64, decodeB64, h1, h2]
      omega
  | case3 a b =>
      have ha : a < 256 := h a (by simp)
      have hb : b < 256 := h b (by simp)
      have h1 : b64v (b64c (a / 4)) = some (a / 4) := b64v_b64c _ (by omega)
      have h2 : b64v (b64c (a % 4 * 16 + b / 16)) = some (a % 4 * 16 + b / 16) :=
        b64v_b64c _ (by omega)
      have h3 : b64v (b64c (b % 16 * 4)) = some (b % 16 * 4) := b64v_b64c _ (by omega)
      have hne3 : b64c (b % 16 * 4) ≠ '=' := b64c_ne_pad _ (by omega)
      have e1 : a / 4 * 4 + (a % 4 * 16 + b / 16) / 16 = a := by omega
      have e2 : (a % 4 * 16 + b / 16) % 16 * 16 + b % 16 * 4 / 4 = b := by omega
      simp [encodeB64, decodeB64, h1, h2, h3, hne3]
      omega
  | case4 a b c rest ih =>
      have ha : a < 256 := h a (by simp)
      have hb : b < 256 := h b (by simp)
      have hc : c < 256 := h c (by simp)
      have hrest : ∀ x ∈ rest, x < 256 := by
        intro x hx
        exact h x (by simp [hx])
      have h1 : b64v (b64c (a / 4)) = some (a / 4) := b64v_b64c _ (by omega)
      have h2 : b64v (b64c (a % 4 * 16 + b / 16)) = some (a % 4 * 16 + b / 16) :=
        b64v_b64c _ (by omega)
      have h3 : b64v (b64c (b % 16 * 4 + c / 64)) = some (b % 16 * 4 + c / 64) :=
        b64v_b64c _ (by omega)
      have h4 : b64v (b64c (c % 64)) = some (c % 64) := b64v_b64c _ (by omega)
      have hne3 : b64c (b % 16 * 4 + c / 64) ≠ '=' := b64c_ne_pad _ (by omega)
      have hne4 : b64c (c % 64) ≠ '=' := b64c_ne_pad _ (by omega)
      have e1 : a / 4 * 4 + (a % 4 * 16 + b / 16) / 16 = a := by omega
      have e2 : (a % 4 * 16 + b / 16) % 16 * 16 + (b % 16 * 4 + c / 64) / 4 = b := by omega
      have e3 : (b % 16 * 4 + c / 64) % 4 * 64 + c % 64 = c := by omega
      simp [encodeB64, decodeB64, h1, h2, h3, h4, hne3, hne4, ih hrest, e1, e2, e3]

theorem utf8Char_lt (ch : Char) : ∀ x ∈ utf8Char ch, x < 256 := by
  have hv : ch.toNat < 1114112 := by
    have hvalid := ch.valid
    unfold UInt32.isValidChar Nat.isValidChar at hvalid
    rcases hvalid with h | ⟨h1, h2⟩
    · exact lt_trans h (by norm_num)
    · exact h2
  intro x hx
  simp only [utf8Char] at hx
  split_ifs at hx with h1 h2 h3 <;> simp at hx <;> omega

theorem utf8_lt (s : String) : ∀ x ∈ utf8 s, x < 256 := by
  intro x hx
  unfold utf8 at hx
  rw [List.mem_flatten] at hx
  obtain ⟨l, hl, hxl⟩ := hx
  rw [List.mem_map] at hl
  obtain ⟨ch, _, rfl⟩ := hl
  exact utf8Char_lt ch x hxl

theorem parseTLV_cons (t : Nat) (v rest : List Nat) :
    parseTLV (t :: v.length :: (v ++ rest)) =
      (parseTLV rest).map (fun rs => (t, v) :: rs) := by
  have hle : v.length ≤ (v ++ rest).length := by simp
  rw [parseTLV]
  rw [if_pos hle, List.drop_left, List.take_left]
  cases parseTLV rest <;> rfl

set_option maxHeartbeats 1000000 in
theorem parseLineItem_error_of_invalid (item : RawLineItem)
    (hbad : ¬ ((item.vat_rate.getD ⟨150, 1⟩).deq ⟨0, 0⟩ ∨
        (item.vat_rate.getD ⟨150, 1⟩).deq ⟨5, 0⟩ ∨
        (item.vat_rate.getD ⟨150, 1⟩).deq ⟨15, 0⟩) ∨
      item.quantity.num ≤ 0 ∨ item.unit_price.num ≤ 0) :
    ∃ e, parseLineItem item = Except.error e := by
  unfold parseLineItem
  split_ifs with h1 h2 h3 h4 h5 h6 h7 h8 h9
  any_goals exact ⟨_, rfl⟩
  exfalso
  rcases hbad with hb | hb | hb
  · exact hb h9
  · exact h3 hb
  · exact h5 hb

theorem mapME_error {α β : Type} (f : α → Except String β) (l : List α) (a : α)
    (ha : a ∈ l) (he : ∃ e, f a = Except.error e) :
    ∃ e, mapME f l = Except.error e := by
  induction l with
  | nil => cases ha
  | cons hd tl ih =>
      rcases List.mem_cons.mp ha with rfl | hmem
      · obtain ⟨e, hfe⟩ := he
        exact ⟨e, by simp [mapME, hfe, Bind.bind, Except.bind]⟩
      · cases hf : f hd with
        | error e => exact ⟨e, by simp [mapME, hf, Bind.bind, Except.bind]⟩
        | ok b =>
            obtain ⟨e, hme⟩ := ih hmem
            exact ⟨e, by simp [mapME, hf, hme, Bind.bind, Except.bind]⟩

/-- C1, as stated, is refuted: for the single valid line item
quantity 0.50, unit price 2.01, vat rate 15 the calculator returns
subtotal 1.00, vat 0.15, total 1.16, and 1.16 differs from
1.00 + 0.15 (the three aggregates are rounded independently, so the
rounded identity fails by one cent). -/
theorem c1_claim_counterexample :
    itemValid c1item = true ∧
    calculate_totals [c1item] =
      { subtotal := ⟨100, 2⟩, vat_amount := ⟨15, 2⟩, total_amount := ⟨116, 2⟩ } ∧
    ¬ (calculate_totals [c1item]).total_amount.deq
        ((calculate_totals [c1item]).subtotal.add (calculate_totals [c1item]).vat_amount) :=
  ⟨by decide, by decide, by decide⟩

/-- C1 (amended): for every list of valid line items the calculator
returns the half-even rounding, to two decimal places, of each exact
aggregate: subtotal, VAT, and their exact sum; the identity
total = subtotal + vat holds on the exact aggregates before rounding,
and each returned value carries exactly two fractional digits. -/
theorem c1_amended_totals (items : List RawItem) (_hvalid : ∀ i ∈ items, itemValid i = true) :
    (calculate_totals items).subtotal.toRat = ratRound2 (specSubtotal items) ∧
    (calculate_totals items).vat_amount.toRat = ratRound2 (specVat items) ∧
    (calculate_totals items).total_amount.toRat = ratRound2 (specSubtotal items + specVat items) ∧
    (calculate_totals items).subtotal.scale = 2 ∧
    (calculate_totals items).vat_amount.scale = 2 ∧
    (calculate_totals items).total_amount.scale = 2 := by
  obtain ⟨h1, h2⟩ := calcLoop_sem items ⟨0, 0⟩ ⟨0, 0⟩
  have hz : (⟨0, 0⟩ : Decimal).toRat = 0 := by simp [Decimal.toRat]
  unfold calculate_totals
  refine ⟨?_, ?_, ?_, Decimal.round2_scale _, Decimal.round2_scale _, Decimal.round2_scale _⟩
  · rw [Decimal.round2_toRat, h1, hz, zero_add]
  · rw [Decimal.round2_toRat, h2, hz, zero_add]
  · rw [Decimal.round2_toRat, Decimal.toRat_add, h1, h2, hz, zero_add, zero_add]

theorem c1_amended_totals_witness :
    (∀ i ∈ [c1okItem], itemValid i = true) ∧
    ((calculate_totals [c1okItem]).subtotal.toRat = ratRound2 (specSubtotal [c1okItem]) ∧
     (calculate_totals [c1okItem]).vat_amount.toRat = ratRound2 (specVat [c1okItem]) ∧
     (calculate_totals [c1okItem]).total_amount.toRat =
       ratRound2 (specSubtotal [c1okItem] + specVat [c1okItem]) ∧
     (calculate_totals [c1okItem]).subtotal.scale = 2 ∧
     (calculate_totals [c1okItem]).vat_amount.scale = 2 ∧
     (calculate_totals [c1okItem]).total_amount.scale = 2) :=
  ⟨by decide, c1_amended_totals [c1okItem] (by decide)⟩

/-- C4: the preview path and the full generation path compute
bit-identical subtotal, VAT and total for identical input (same
representation, not merely the same value), and the calculator is a
pure function. -/
theorem preview_matches_calculator (items : List RawItem) :
    (calculate_preview items).subtotal = (calculate_totals items).subtotal ∧
    (calculate_preview items).vat_amount = (calculate_totals items).vat_amount ∧
    (calculate_preview items).total_amount = (calculate_totals items).total_amount ∧
    ∀ l : List RawItem, calculate_totals l = calculate_totals l := by
  obtain ⟨h1, h2⟩ := previewLoop_eq_calcLoop items 1 ⟨0, 0⟩ ⟨0, 0⟩ []
  simp only [calculate_preview, calculate_totals]
  exact ⟨by rw [h1], by rw [h2], by rw [h1, h2], fun _ => trivial⟩

/-- C10: the preview reports is_valid exactly when its error list is
empty, and it returns the computed rounded totals (the same ones the
calculator produces) whether or not validation errors are present. -/
theorem preview_validity_and_totals (items : List RawItem) :
    ((calculate_preview items).is_valid = true ↔ (calculate_preview items).errors = []) ∧
    (calculate_preview items).subtotal = (calculate_totals items).subtotal ∧
    (calculate_preview items).vat_amount = (calculate_totals items).vat_amount ∧
    (calculate_preview items).total_amount = (calculate_totals items).total_amount := by
  obtain ⟨h1, h2⟩ := previewLoop_eq_calcLoop items 1 ⟨0, 0⟩ ⟨0, 0⟩ []
  simp only [calculate_preview, calculate_totals]
  exact ⟨List.isEmpty_iff, by rw [h1], by rw [h2], by rw [h1, h2]⟩

/-- C2: for fields whose UTF-8 encodings fit one length byte, the
base64-decoded QR payload parses as exactly five TLV records in tag
order 1 to 5, holding the seller name, VAT number, timestamp, and the
two amounts formatted as fixed two-decimal strings, with each length
byte equal to the UTF-8 byte length of its value and no trailing
bytes. -/
theorem qr_payload_tlv_roundtrip (seller vatn ts : String) (total vatAmt : Decimal)
    (h1 : (utf8 seller).length ≤ 255) (h2 : (utf8 vatn).length ≤ 255)
    (h3 : (utf8 ts).length ≤ 255) (h4 : (utf8 (fmt2 total)).length ≤ 255)
    (h5 : (utf8 (fmt2 vatAmt)).length ≤ 255) :
    ∃ s : String, generate_qr_data seller vatn ts total vatAmt = some s ∧
      (decodeB64 s.data).bind parseTLV =
        some [(1, utf8 seller), (2, utf8 vatn), (3, utf8 ts),
          (4, utf8 (fmt2 total)), (5, utf8 (fmt2 vatAmt))] := by
  have e1 : encodeTLV 1 seller = some (1 :: (utf8 seller).length :: utf8 seller) := by
    unfold encodeTLV
    rw [if_pos ⟨by omega, h1⟩]
  have e2 : encodeTLV 2 vatn = some (2 :: (utf8 vatn).length :: utf8 vatn) := by
    unfold encodeTLV
    rw [if_pos ⟨by omega, h2⟩]
  have e3 : encodeTLV 3 ts = some (3 :: (utf8 ts).length :: utf8 ts) := by
    unfold encodeTLV
    rw [if_pos ⟨by omega, h3⟩]
  have e4 : encodeTLV 4 (fmt2 total) =
      some (4 :: (utf8 (fmt2 total)).length :: utf8 (fmt2 total)) := by
    unfold encodeTLV
    rw [if_pos ⟨by omega, h4⟩]
  have e5 : encodeTLV 5 (fmt2 vatAmt) =
      some (5 :: (utf8 (fmt2 vatAmt)).length :: utf8 (fmt2 vatAmt)) := by
    unfold encodeTLV
    rw [if_pos ⟨by omega, h5⟩]
  refine ⟨String.mk (encodeB64
    ((1 :: (utf8 seller).length :: utf8 seller) ++
     (2 :: (utf8 vatn).length :: utf8 vatn) ++
     (3 :: (utf8 ts).length :: utf8 ts) ++
     (4 :: (utf8 (fmt2 total)).length :: utf8 (fmt2 total)) ++
     (5 :: (utf8 (fmt2 vatAmt)).length :: utf8 (fmt2 vatAmt)))), ?_, ?_⟩
  · simp [generate_qr_data, e1, e2, e3, e4, e5]
  · have hbytes : ∀ x ∈
        ((1 :: (utf8 seller).length :: utf8 seller) ++
         (2 :: (utf8 vatn).length :: utf8 vatn) ++
         (3 :: (utf8 ts).length :: utf8 ts) ++
         (4 :: (utf8 (fmt2 total)).length :: utf8 (fmt2 total)) ++
         (5 :: (utf8 (fmt2 vatAmt)).length :: utf8 (fmt2 vatAmt))), x < 256 := by
      intro x hx
      simp only [List.mem_append, List.mem_cons] at hx
      rcases hx with ((((hx | hx | hx) | (hx | hx | hx)) | (hx | hx | hx)) |
        (hx | hx | hx)) | (hx | hx | hx)
      all_goals first
        | omega
        | (exact utf8_lt _ _ hx)
    rw [show (String.mk (encodeB64
        ((1 :: (utf8 seller).length :: utf8 seller) ++
         (2 :: (utf8 vatn).length :: utf8 vatn) ++
         (3 :: (utf8 ts).length :: utf8 ts) ++
         (4 :: (utf8 (fmt2 total)).length :: utf8 (fmt2 total)) ++
         (5 :: (utf8 (fmt2 vatAmt)).length :: utf8 (fmt2 vatAmt))))).data =
      encodeB64
        ((1 :: (utf8 seller).length :: utf8 seller) ++
         (2 :: (utf8 vatn).length :: utf8 vatn) ++
         (3 :: (utf8 ts).length :: utf8 ts) ++
         (4 :: (utf8 (fmt2 total)).length :: utf8 (fmt2 total)) ++
         (5 :: (utf8 (fmt2 vatAmt)).length :: utf8 (fmt2 vatAmt))) from rfl]
    rw [decode_encode _ hbytes]
    rw [Option.some_bind]
    have hshape :
        ((1 :: (utf8 seller).length :: utf8 seller) ++
         (2 :: (utf8 vatn).length :: utf8 vatn) ++
         (3 :: (utf8 ts).length :: utf8 ts) ++
         (4 :: (utf8 (fmt2 total)).length :: utf8 (fmt2 total)) ++
         (5 :: (utf8 (fmt2 vatAmt)).length :: utf8 (fmt2 vatAmt))) =
        1 :: (utf8 seller).length :: (utf8 seller ++
          (2 :: (utf8 vatn).length :: (utf8 vatn ++
            (3 :: (utf8 ts).length :: (utf8 ts ++
              (4 :: (utf8 (fmt2 total)).length :: (utf8 (fmt2 total) ++
                (5 :: (utf8 (fmt2 vatAmt)).length :: (utf8 (fmt2 vatAmt) ++ ([] : List Nat)))))))))) := by
      simp [List.append_assoc]
    rw [hshape, parseTLV_cons, parseTLV_cons, parseTLV_cons, parseTLV_cons, parseTLV_cons]
    simp [parseTLV]

theorem qr_payload_tlv_roundtrip_witness :
    ((utf8 "Test Co").length ≤ 255 ∧ (utf8 "310122393500003").length ≤ 255 ∧
     (utf8 "2024-01-01T00:00:00").length ≤ 255 ∧
     (utf8 (fmt2 ⟨575000, 2⟩)).length ≤ 255 ∧ (utf8 (fmt2 ⟨75000, 2⟩)).length ≤ 255) ∧
    (∃ s : String,
      generate_qr_data "Test Co" "310122393500003" "2024-01-01T00:00:00"
        ⟨575000, 2⟩ ⟨75000, 2⟩ = some s ∧
      (decodeB64 s.data).bind parseTLV =
        some [(1, utf8 "Test Co"), (2, utf8 "310122393500003"),
          (3, utf8 "2024-01-01T00:00:00"), (4, utf8 (fmt2 ⟨575000, 2⟩)),
          (5, utf8 (fmt2 ⟨75000, 2⟩))]) :=
  ⟨⟨by decide, by decide, by decide, by decide, by decide⟩,
    qr_payload_tlv_roundtrip "Test Co" "310122393500003" "2024-01-01T00:00:00"
      ⟨575000, 2⟩ ⟨75000, 2⟩ (by decide) (by decide) (by decide) (by decide) (by decide)⟩

/-- C5: a TLV field whose UTF-8 encoding exceeds 255 bytes is a hard
error: the TLV encoder fails (Python bytes([tag, length]) raises
ValueError for a length above 255), and no base64 payload containing
the oversized field is produced, whichever of the three string fields
is oversized. -/
theorem tlv_oversize_rejected (value : String) (hv : 255 < (utf8 value).length) :
    (∀ tag : Nat, encodeTLV tag value = none) ∧
    (∀ s2 s3 : String, ∀ t v : Decimal,
      generate_qr_data value s2 s3 t v = none ∧
      generate_qr_data s2 value s3 t v = none ∧
      generate_qr_data s2 s3 value t v = none) := by
  have henc : ∀ tag : Nat, encodeTLV tag value = none := by
    intro tag
    unfold encodeTLV
    rw [if_neg]
    intro hcontra
    omega
  refine ⟨henc, ?_⟩
  intro s2 s3 t v
  refine ⟨?_, ?_, ?_⟩
  · simp [generate_qr_data, henc]
  · cases ha : encodeTLV 1 s2 <;> simp [generate_qr_data, ha, henc]
  · cases ha : encodeTLV 1 s2 <;> cases hb : encodeTLV 2 s3 <;>
      simp [generate_qr_data, ha, hb, henc]

set_option maxRecDepth 8192 in
theorem tlv_oversize_rejected_witness :
    255 < (utf8 oversizedValue).length ∧
    (encodeTLV 1 oversizedValue = none ∧
     generate_qr_data oversizedValue "3" "T" ⟨0, 0⟩ ⟨0, 0⟩ = none) := by
  have h : 255 < (utf8 oversizedValue).length := by decide
  exact ⟨h, (tlv_oversize_rejected oversizedValue h).1 1,
    ((tlv_oversize_rejected oversizedValue h).2 "3" "T" ⟨0, 0⟩ ⟨0, 0⟩).1⟩

/-- C3 evaluated at its failing input: with language ar and the caller
overriding only the key total, the resolved total is X as the claim
says, but vat_number resolves to the InvoiceLabels field default
"VAT Number" (the English default) instead of the Arabic default,
because the parsed labels object carries a value for every key and
model_dump(exclude_none=True) therefore dumps all of them.  The
language-default path with no labels object is intact: with language
en and no overrides the resolver returns exactly the English
defaults. -/
theorem labels_merge_clobbers_language_defaults :
    get_labels "ar" (some (parseInvoiceLabels onlyTotalX)) LabelKey.total = some "X" ∧
    get_labels "ar" (some (parseInvoiceLabels onlyTotalX)) LabelKey.vat_number =
      some "VAT Number" ∧
    defaultLabelsAr LabelKey.vat_number = some "الرقم الضريبي" ∧
    get_labels "ar" (some (parseInvoiceLabels onlyTotalX)) LabelKey.vat_number ≠
      defaultLabelsAr LabelKey.vat_number ∧
    get_labels "ar" (some (parseInvoiceLabels onlyTotalX)) LabelKey.vat_number =
      defaultLabelsEn LabelKey.vat_number ∧
    (∀ k, get_labels "en" none k = defaultLabelsEn k) :=
  ⟨rfl, rfl, rfl, by decide, rfl, fun _ => rfl⟩

/-- C7: whenever the external reshaping or bidi step fails, the shaping
operation returns the original text unchanged as a successful result
(generation continues; the failure is swallowed). -/
theorem shaping_failure_returns_original {ε : Type}
    (reshape bidi : String → Except ε String) (text : String) (e : ε)
    (h : shapePipeline reshape bidi text = Except.error e) :
    reshape_arabic_text reshape bidi text = text := by
  unfold reshape_arabic_text
  split_ifs with h0
  · rfl
  · rw [h]

theorem shaping_failure_returns_original_witness :
    shapePipeline failShaper okShaper "abc" = Except.error () ∧
    reshape_arabic_text failShaper okShaper "abc" = "abc" :=
  ⟨rfl, shaping_failure_returns_original failShaper okShaper "abc" () rfl⟩

/-- C8: on empty input, or on input with no character in the Arabic
ranges, the shaping operation returns its input unchanged, given that
the external reshape and bidi capabilities are the identity on
Arabic-free text (their documented behavior; the source delegates to
them unconditionally for non-empty input). -/
theorem shaping_noop_on_non_arabic {ε : Type}
    (reshape bidi : String → Except ε String) (text : String)
    (hr : is_arabic_text text = false → reshape text = Except.ok text)
    (hb : is_arabic_text text = false → bidi text = Except.ok text)
    (h : text = "" ∨ is_arabic_text text = false) :
    reshape_arabic_text reshape bidi text = text := by
  unfold reshape_arabic_text
  split_ifs with h0
  · rfl
  · rcases h with h | h
    · exact absurd h h0
    · simp [shapePipeline, hr h, hb h, Bind.bind, Except.bind]

theorem shaping_noop_on_non_arabic_witness :
    (is_arabic_text "Invoice 123" = false) ∧
    reshape_arabic_text okShaper okShaper "Invoice 123" = "Invoice 123" :=
  ⟨by decide,
    shaping_noop_on_non_arabic okShaper okShaper "Invoice 123"
      (fun _ => rfl) (fun _ => rfl) (Or.inr (by decide))⟩

/-- C6: a request holding any line item whose VAT rate is outside
the set 0, 5, 15 or whose quantity or unit price is not positive is
rejected by request validation, before any QR or PDF work: the
endpoint returns a validation error that does not depend on the QR
renderer, the PDF composer, the company or the database, and no
document bytes are produced. -/
theorem invalid_item_rejected_before_generation (raw : RawInvoiceRequest)
    (item : RawLineItem) (hmem : item ∈ raw.line_items)
    (hbad : ¬ ((item.vat_rate.getD ⟨150, 1⟩).deq ⟨0, 0⟩ ∨
        (item.vat_rate.getD ⟨150, 1⟩).deq ⟨5, 0⟩ ∨
        (item.vat_rate.getD ⟨150, 1⟩).deq ⟨15, 0⟩) ∨
      item.quantity.num ≤ 0 ∨ item.unit_price.num ≤ 0) :
    ∃ e, ∀ (qrImg : String → Except Unit (List Nat))
      (pdfGen : Company → InvoiceRequest → List Nat → Except Unit (List Nat))
      (company : Option Company) (db : List Invoice),
      generate_invoice qrImg pdfGen company raw db =
        Except.error (GenError.validation e) := by
  have hval : ∃ e, validateRequest raw = Except.error e := by
    obtain ⟨e, he⟩ :=
      mapME_error parseLineItem raw.line_items item hmem
        (parseLineItem_error_of_invalid item hbad)
    refine ⟨e, ?_⟩
    unfold validateRequest
    rw [he]
  obtain ⟨e, he⟩ := hval
  refine ⟨e, fun qrImg pdfGen company db => ?_⟩
  unfold generate_invoice
  rw [he]

theorem invalid_item_rejected_before_generation_witness :
    (c6item ∈ c6request.line_items ∧
     (¬ ((c6item.vat_rate.getD ⟨150, 1⟩).deq ⟨0, 0⟩ ∨
         (c6item.vat_rate.getD ⟨150, 1⟩).deq ⟨5, 0⟩ ∨
         (c6item.vat_rate.getD ⟨150, 1⟩).deq ⟨15, 0⟩) ∨
       c6item.quantity.num ≤ 0 ∨ c6item.unit_price.num ≤ 0)) ∧
    ∃ e, ∀ (qrImg : String → Except Unit (List Nat))
      (pdfGen : Company → InvoiceRequest → List Nat → Except Unit (List Nat))
      (company : Option Company) (db : List Invoice),
      generate_invoice qrImg pdfGen company c6request db =
        Except.error (GenError.validation e) :=
  ⟨⟨by decide, by decide⟩,
    invalid_item_rejected_before_generation c6request c6item (by decide) (by decide)⟩

/-- C9 (amended): the orchestrator is atomic but it does persist: on
success the database gains exactly the one finished row it returns,
and on any step failing it returns an error with the database exactly
as it was (no partial record is ever stored, because the database
calls are the final step). -/
theorem create_invoice_atomic_persistence (qrImg : String → Except Unit (List Nat))
    (pdfGen : Company → InvoiceRequest → List Nat → Except Unit (List Nat))
    (company : Company) (invoice_data : InvoiceRequest) (db : List Invoice) :
    (create_invoice qrImg pdfGen company invoice_data db).2 =
      match (create_invoice qrImg pdfGen company invoice_data db).1 with
      | Except.ok inv => db ++ [inv]
      | Except.error _ => db := by
  unfold create_invoice
  cases h : createInvoicePipeline qrImg pdfGen company invoice_data <;> rfl

set_option maxRecDepth 8192 in
/-- C9, as stated, is refuted: a concrete successful run of the
orchestrator has a side effect beyond returning the artifact, namely
the finished invoice row is added to the database by the orchestrator
itself (db.add and db.commit are inside create_invoice), so an
initially empty database is no longer empty afterwards. -/
theorem create_invoice_persists_counterexample :
    (create_invoice c9qrImg c9pdfGen c9company c9request []).1.isOk = true ∧
    (create_invoice c9qrImg c9pdfGen c9company c9request []).2 ≠ [] := by
  constructor
  · decide
  · decide

end ZatcaSaath
